import Mathlib

/-!
Shallow embedding of `src/services/ai.py` (class `EnergyProfilerClient` and
its `__main__` block).

The remote OpenAI API is modelled as a bundle of oracle functions
(`Oracles`): each remote operation maps the request the Python code sends to
either a response object or an error (`Except Err`).  The local filesystem
and the process environment are likewise oracle functions.  Remote answers
that may change over time (`runs.retrieve`) additionally take the index of
the call, modelling the passage of time between polls.

Effects that the claims talk about (status fetches, `time.sleep(10)` calls,
`print` calls) are recorded in explicit traces: `run_thread` returns the
list of events it performed, and `mainProgram` returns the list of values
printed to standard output.  Nontermination of the polling loop is modelled
with fuel: a result of `none` means the loop was still running when the
fuel ran out, for every amount of fuel.
-/

/-- An error surfaced to the caller: an error raised by a remote API call,
Python's `KeyError` from `os.environ[...]`, `FileNotFoundError` from
`open(...)`, or `IndexError` from `messages.data[0]`. -/
inductive Err where
  | apiError (msg : String)
  | keyError (key : String)
  | fileNotFound (path : String)
  | indexError
deriving DecidableEq

instance {ε α : Type} [DecidableEq ε] [DecidableEq α] : DecidableEq (Except ε α) :=
  fun a b =>
    match a, b with
    | Except.error x, Except.error y =>
        if h : x = y then Decidable.isTrue (by rw [h])
        else Decidable.isFalse (fun c => h (Except.error.inj c))
    | Except.error _, Except.ok _ => Decidable.isFalse (fun c => Except.noConfusion c)
    | Except.ok _, Except.error _ => Decidable.isFalse (fun c => Except.noConfusion c)
    | Except.ok x, Except.ok y =>
        if h : x = y then Decidable.isTrue (by rw [h])
        else Decidable.isFalse (fun c => h (Except.ok.inj c))

/-- The remote file object returned by `client.files.create`. -/
structure FileObject where
  id : String
deriving DecidableEq

/-- The remote assistant object returned by `client.beta.assistants.create`. -/
structure Assistant where
  id : String
deriving DecidableEq

/-- The remote thread object returned by `client.beta.threads.create`. -/
structure ThreadObject where
  id : String
deriving DecidableEq

/-- The remote message object. -/
structure Message where
  role : String
  content : String
deriving DecidableEq

/-- The paginated list returned by `openai.beta.threads.messages.list`;
`data` is its `.data` attribute, newest first. -/
structure MessageList where
  data : List Message
deriving DecidableEq

/-- The remote run object: the code reads its `.id` and `.status`. -/
structure Run where
  id : String
  status : String
deriving DecidableEq

/-- The request `client.files.create(file=file, purpose=...)` sends: the
bytes of the opened file and the purpose string. -/
structure FileCreateRequest where
  fileBytes : List Nat
  purpose : String
deriving DecidableEq

/-- The keyword arguments of `client.beta.assistants.create`.  `tools` keeps
just the `type` field of each tool dict. -/
structure AssistantCreateRequest where
  name : String
  instructions : String
  tools : List String
  model : String
deriving DecidableEq

/-- The keyword arguments of `client.beta.threads.messages.create`. -/
structure MessageCreateRequest where
  thread_id : String
  role : String
  content : String
  file_ids : List String
deriving DecidableEq

/-- The keyword arguments of `openai.beta.threads.runs.create`. -/
structure RunCreateRequest where
  thread_id : String
  assistant_id : String
deriving DecidableEq

/-- The world outside the Python process: the process environment (as it
stands after `load_dotenv()`), the local filesystem, and one function per
remote API endpoint the code calls.  `runs_retrieve` takes the thread id and
run id the code passes plus the index of the retrieve call, so a remote run
whose status evolves over time is expressible. -/
structure Oracles where
  env : String → Option String
  fs : String → Option (List Nat)
  files_create : FileCreateRequest → Except Err FileObject
  assistants_create : AssistantCreateRequest → Except Err Assistant
  threads_create : Unit → Except Err ThreadObject
  messages_create : MessageCreateRequest → Except Err Message
  runs_create : RunCreateRequest → Except Err Run
  runs_retrieve : String → String → Nat → Except Err Run
  messages_list : String → Except Err MessageList

/-- One observable event of `run_thread`: a `runs.create` call, a
`runs.retrieve` call (with the ids the code passed), a `time.sleep(10)`,
or a `print(run.status)`. -/
inductive Ev where
  | runsCreate (thread_id : String) (assistant_id : String)
  | runsRetrieve (thread_id : String) (run_id : String)
  | sleep10
  | printStatus (s : String)
deriving DecidableEq

/-- One value written to standard output by `print`: a plain string, or a
message object (Python prints the object's own textual rendering, which is
the full record, not its `content` field). -/
inductive PyVal where
  | str (s : String)
  | message (m : Message)
deriving DecidableEq

/-- `EnergyProfilerClient.__init__`: `openai.api_key = os.environ['OPENAI_API_KEY']`.
`env` is the environment after `load_dotenv()`.  Returns the key read (or the
`KeyError` a missing variable raises) together with the list of environment
variables the constructor reads. -/
def clientInit (o : Oracles) : Except Err String × List String :=
  match o.env "OPENAI_API_KEY" with
  | none => (Except.error (Err.keyError "OPENAI_API_KEY"), ["OPENAI_API_KEY"])
  | some k => (Except.ok k, ["OPENAI_API_KEY"])

/-- `EnergyProfilerClient.create_file`: opens `"data/energy_data.txt"` in
binary mode (raising `FileNotFoundError` when it is absent) and calls
`client.files.create(file=file, purpose='assistants')`. -/
def create_file (o : Oracles) : Except Err FileObject :=
  match o.fs "data/energy_data.txt" with
  | none => Except.error (Err.fileNotFound "data/energy_data.txt")
  | some bytes => o.files_create { fileBytes := bytes, purpose := "assistants" }

/-- The upload operation as §4.1 of the spec words it: `UploadFile(path)`,
whose input is a local file path, forwarding exactly that file's bytes.
Stated only to be compared with `create_file`, which takes no path. -/
def create_file_asSpecified (o : Oracles) (path : String) : Except Err FileObject :=
  match o.fs path with
  | none => Except.error (Err.fileNotFound path)
  | some bytes => o.files_create { fileBytes := bytes, purpose := "assistants" }

/-- The fixed keyword arguments of `client.beta.assistants.create` in
`create_assistant` (the two adjacent Python string literals of
`instructions` concatenate). -/
def assistant_payload : AssistantCreateRequest :=
  { name := "Household Energy Profiler"
    instructions :=
      "You are an experienced Household energy profiler. Your job is to " ++
      "analyse, summarise, and provide insights from data and create a consumer profile"
    tools := ["code_interpreter"]
    model := "gpt-4" }

/-- `EnergyProfilerClient.create_assistant`. -/
def create_assistant (o : Oracles) : Except Err Assistant :=
  o.assistants_create assistant_payload

/-- `EnergyProfilerClient.create_thread`: `client.beta.threads.create()`. -/
def create_thread (o : Oracles) : Except Err ThreadObject :=
  o.threads_create ()

/-- The `content` string of `create_message`: the Python source's adjacent
string literals, concatenated.  (\x27 is the apostrophe character.) -/
def message_content : String :=
  "Create an infographic or a series of visualizations that illustrate an AI-driven " ++
  "analysis of household energy consumption. The data, compiled in the \x27energy_data.csv\x27 file, " ++
  "includes electricity consumption (kWh/h), stock exchange electricity prices (c/kWh), and outdoor " ++
  "temperature data (°C) from January 2022 to September 2023. The analysis should focus on a " ++
  "fictional customer with an electric-heated detached house under a stock exchange electricity " ++
  "contract, utilizing cheaper night-time electricity rates. The visualizations should highlight " ++
  "patterns and insights into the customer\x27s electricity usage, such as periods of high consumption, " ++
  "efficiency in using night-time rates, and potential areas for energy savings. Additionally, include " ++
  "AI-recommended strategies for better utilizing favorable electricity contract terms and adapting to " ++
  "demand response. Ensure the visualizations are clear, informative, and effectively convey the intricate " ++
  "relationships between consumption, pricing, and external factors like temperature. Note that the data " ++
  "is separated with \x27;\x27 and decimal point can be presented by \x27,\x27"

/-- The keyword arguments `create_message` passes to
`client.beta.threads.messages.create`. -/
def message_payload (thread_id file_id : String) : MessageCreateRequest :=
  { thread_id := thread_id
    role := "user"
    content := message_content
    file_ids := [file_id] }

/-- `EnergyProfilerClient.create_message`. -/
def create_message (o : Oracles) (thread_id file_id : String) : Except Err Message :=
  o.messages_create (message_payload thread_id file_id)

/-- The `while run.status != "completed"` loop of `run_thread`.  Each
iteration retrieves the run (passing the current run's id), then sleeps 10
seconds, then prints the retrieved status, and re-tests the condition.
`i` is the index of the next retrieve call, `evs` the events so far.
`none` means the fuel ran out with the loop still going. -/
def pollLoop (retr : String → String → Nat → Except Err Run) (thread_id : String) :
    Nat → Run → Nat → List Ev → Option (Except Err Run × List Ev)
  | 0, run, _, evs =>
      if run.status = "completed" then some (Except.ok run, evs) else none
  | fuel + 1, run, i, evs =>
      if run.status = "completed" then some (Except.ok run, evs)
      else
        match retr thread_id run.id i with
        | Except.error e =>
            some (Except.error e, evs ++ [Ev.runsRetrieve thread_id run.id])
        | Except.ok r =>
            pollLoop retr thread_id fuel r (i + 1)
              (evs ++ [Ev.runsRetrieve thread_id run.id, Ev.sleep10, Ev.printStatus r.status])

/-- `EnergyProfilerClient.run_thread`: creates the run, then polls as in
`pollLoop`, returning the final run together with the trace of events. -/
def run_thread (o : Oracles) (thread_id assistant_id : String) (fuel : Nat) :
    Option (Except Err Run × List Ev) :=
  match o.runs_create { thread_id := thread_id, assistant_id := assistant_id } with
  | Except.error e => some (Except.error e, [Ev.runsCreate thread_id assistant_id])
  | Except.ok run =>
      pollLoop o.runs_retrieve thread_id fuel run 0 [Ev.runsCreate thread_id assistant_id]

/-- `EnergyProfilerClient.get_messages`: `openai.beta.threads.messages.list(thread_id=...)`. -/
def get_messages (o : Oracles) (thread_id : String) : Except Err MessageList :=
  o.messages_list thread_id

/-- The `print` calls among a trace of `run_thread` events, as stdout values. -/
def printsOf (evs : List Ev) : List PyVal :=
  evs.filterMap fun e =>
    match e with
    | Ev.printStatus s => some (PyVal.str s)
    | _ => none

/-- The `if __name__ == "__main__"` block: the fixed call sequence, returning
the outcome (success, or the first uncaught error) and everything printed to
standard output.  `none` means the polling loop never finished within `fuel`. -/
def mainProgram (o : Oracles) (fuel : Nat) : Option (Except Err Unit × List PyVal) :=
  match (clientInit o).1 with
  | Except.error e => some (Except.error e, [])
  | Except.ok _ =>
    match create_file o with
    | Except.error e => some (Except.error e, [])
    | Except.ok file =>
      match create_assistant o with
      | Except.error e => some (Except.error e, [])
      | Except.ok assistant =>
        match create_thread o with
        | Except.error e => some (Except.error e, [])
        | Except.ok thread =>
          match create_message o thread.id file.id with
          | Except.error e => some (Except.error e, [])
          | Except.ok _ =>
            match run_thread o thread.id assistant.id fuel with
            | none => none
            | some (Except.error e, evs) => some (Except.error e, printsOf evs)
            | some (Except.ok _, evs) =>
              match get_messages o thread.id with
              | Except.error e => some (Except.error e, printsOf evs)
              | Except.ok messages =>
                match messages.data with
                | [] =>
                    some (Except.error Err.indexError,
                      printsOf evs ++ [PyVal.str "Final result:"])
                | m :: _ =>
                    some (Except.ok (),
                      printsOf evs ++ [PyVal.str "Final result:", PyVal.message m])

/-- The end-to-end mock of §8 of the spec: file id "f1", assistant id "a1",
thread id "t1", run "r1" created with status "queued" and retrieved as
"completed", message list `[{role: "assistant", content: "summary"}]`.  The
environment holds the API key and the fixed dataset path holds bytes
`[1, 2, 3]`. -/
def e2eOracles : Oracles :=
  { env := fun k => if k = "OPENAI_API_KEY" then some "sk-test" else none
    fs := fun p => if p = "data/energy_data.txt" then some [1, 2, 3] else none
    files_create := fun _ => Except.ok { id := "f1" }
    assistants_create := fun _ => Except.ok { id := "a1" }
    threads_create := fun _ => Except.ok { id := "t1" }
    messages_create := fun r => Except.ok { role := r.role, content := r.content }
    runs_create := fun _ => Except.ok { id := "r1", status := "queued" }
    runs_retrieve := fun _ _ _ => Except.ok { id := "r1", status := "completed" }
    messages_list := fun _ => Except.ok { data := [{ role := "assistant", content := "summary" }] } }

/-- The polling mock of §8 of the spec: the created run has the non-completed
status "queued", and retrieval reports "in_progress" on the first two calls
and "completed" from the third on. -/
def mockOracles : Oracles :=
  { e2eOracles with
    runs_retrieve := fun _ _ n =>
      Except.ok { id := "r1", status := if n < 2 then "in_progress" else "completed" } }

/-- A remote whose run never completes: every retrieval reports "failed". -/
def failOracles : Oracles :=
  { e2eOracles with
    runs_retrieve := fun _ _ _ => Except.ok { id := "r1", status := "failed" } }

/-- A remote whose run-create already answers with status "completed". -/
def completedOracles : Oracles :=
  { e2eOracles with
    runs_create := fun _ => Except.ok { id := "r9", status := "completed" } }

/-- A remote whose file-create call raises an error. -/
def errOracles : Oracles :=
  { e2eOracles with
    files_create := fun _ => Except.error (Err.apiError "boom") }

/-- Remote and filesystem distinguishing which file's bytes are uploaded:
the fixed dataset path holds `[2]` and `"other.csv"` holds `[1]`; the remote
file-create answer records which bytes arrived. -/
def cexOracles : Oracles :=
  { e2eOracles with
    fs := fun p =>
      if p = "other.csv" then some [1]
      else if p = "data/energy_data.txt" then some [2]
      else none
    files_create := fun req =>
      Except.ok { id := if req.fileBytes = [2] then "uploaded-fixed-path-bytes" else "uploaded-other-bytes" } }

/-- A remote assistant service that mints a fresh identifier: `n` is how
many assistants it has already created when the call arrives. -/
def freshServer (n : Nat) : Oracles :=
  { e2eOracles with
    assistants_create := fun _ => Except.ok { id := "asst_" ++ toString n } }

/-- An environment with no `OPENAI_API_KEY` (and nothing else). -/
def noKeyOracles : Oracles :=
  { e2eOracles with env := fun _ => none }

/-- The event trace of `run_thread` against `mockOracles`: one create, then
three iterations each of retrieve, sleep, print. -/
def mockTrace : List Ev :=
  [Ev.runsCreate "t1" "a1",
   Ev.runsRetrieve "t1" "r1", Ev.sleep10, Ev.printStatus "in_progress",
   Ev.runsRetrieve "t1" "r1", Ev.sleep10, Ev.printStatus "in_progress",
   Ev.runsRetrieve "t1" "r1", Ev.sleep10, Ev.printStatus "completed"]

/-- Everything the entry point prints against `e2eOracles`. -/
def e2eOutput : List PyVal :=
  [PyVal.str "completed", PyVal.str "Final result:",
   PyVal.message { role := "assistant", content := "summary" }]

/-- Any run the poll loop hands back normally carries status "completed":
the `while` condition is the only exit. -/
theorem pollLoop_ok_completed (retr : String → String → Nat → Except Err Run)
    (tid : String) :
    ∀ fuel run i evs r out,
      pollLoop retr tid fuel run i evs = some (Except.ok r, out) →
      r.status = "completed" := by
  intro fuel
  induction fuel with
  | zero =>
    intro run i evs r out h
    by_cases hs : run.status = "completed"
    · simp only [pollLoop, if_pos hs, Option.some.injEq, Prod.mk.injEq,
        Except.ok.injEq] at h
      exact h.1 ▸ hs
    · simp [pollLoop, hs] at h
  | succ n ih =>
    intro run i evs r out h
    by_cases hs : run.status = "completed"
    · simp only [pollLoop, if_pos hs, Option.some.injEq, Prod.mk.injEq,
        Except.ok.injEq] at h
      exact h.1 ▸ hs
    · simp only [pollLoop] at h
      rw [if_neg hs] at h
      cases hr : retr tid run.id i with
      | error e =>
        rw [hr] at h
        simp at h
      | ok r2 =>
        rw [hr] at h
        exact ih r2 (i + 1) _ r out h

/-- When every retrieval succeeds with a status other than "completed", the
poll loop consumes all its fuel without returning. -/
theorem pollLoop_never_completed (retr : String → String → Nat → Except Err Run)
    (tid : String)
    (hret : ∀ t rid n, ∃ r2, retr t rid n = Except.ok r2 ∧ r2.status ≠ "completed") :
    ∀ fuel run i evs, run.status ≠ "completed" →
      pollLoop retr tid fuel run i evs = none := by
  intro fuel
  induction fuel with
  | zero =>
    intro run i evs hs
    simp [pollLoop, hs]
  | succ n ih =>
    intro run i evs hs
    obtain ⟨r2, hr2, hs2⟩ := hret tid run.id i
    simp only [pollLoop]
    rw [if_neg hs, hr2]
    exact ih r2 (i + 1) _ hs2

/-- C1: run_thread returns normally only with a run whose status is the
literal string "completed"; and when no status the remote ever reports
equals "completed" — the created run's status included, matching the
claim's example of a run that always reports "failed" — and retrievals
succeed, run_thread never terminates: it is still looping for every
amount of fuel. -/
theorem C1_run_thread_exits_only_on_completed :
    (∀ (o : Oracles) (tid aid : String) (fuel : Nat) (r : Run) (evs : List Ev),
        run_thread o tid aid fuel = some (Except.ok r, evs) →
        r.status = "completed") ∧
    (∀ (o : Oracles) (tid aid : String) (run : Run),
        o.runs_create { thread_id := tid, assistant_id := aid } = Except.ok run →
        run.status ≠ "completed" →
        (∀ t rid n, ∃ r2, o.runs_retrieve t rid n = Except.ok r2 ∧
            r2.status ≠ "completed") →
        ∀ fuel, run_thread o tid aid fuel = none) := by
  constructor
  · intro o tid aid fuel r evs h
    unfold run_thread at h
    cases hc : o.runs_create { thread_id := tid, assistant_id := aid } with
    | error e =>
      rw [hc] at h
      simp at h
    | ok run =>
      rw [hc] at h
      exact pollLoop_ok_completed o.runs_retrieve tid fuel run 0 _ r evs h
  · intro o tid aid run hc hs hret fuel
    unfold run_thread
    rw [hc]
    exact pollLoop_never_completed o.runs_retrieve tid hret fuel run 0 _ hs

/-- C1 witness: against a remote that creates the run as "queued" and always
retrieves it as "failed", run_thread is still looping after 7 polls. -/
theorem C1_witness : run_thread failOracles "t1" "a1" 7 = none :=
  C1_run_thread_exits_only_on_completed.2 failOracles "t1" "a1"
    { id := "r1", status := "queued" } rfl (by decide)
    (fun _ _ _ => ⟨{ id := "r1", status := "failed" }, rfl, by decide⟩) 7

/-- C2, counterexample: against the mock that answers "in_progress",
"in_progress", "completed", run_thread does make exactly three status
fetches and return the completed record, but it does not sleep only between
fetches: it sleeps three times, not two, and the events right after the
third (last) fetch are a sleep and a status print. -/
theorem C2_counterexample :
    run_thread mockOracles "t1" "a1" 10 =
      some (Except.ok { id := "r1", status := "completed" }, mockTrace) ∧
    mockTrace.count (Ev.runsRetrieve "t1" "r1") = 3 ∧
    mockTrace.count Ev.sleep10 = 3 ∧
    ¬ mockTrace.count Ev.sleep10 = 2 ∧
    mockTrace.drop 7 = [Ev.runsRetrieve "t1" "r1", Ev.sleep10, Ev.printStatus "completed"] := by
  decide

/-- C2 (amended): with run-create answering the non-completed status
"queued" and retrieval answering "in_progress" twice then "completed",
run_thread performs exactly three status fetches, sleeps 10 seconds after
every fetch — the last one included — prints the fetched status after each
sleep, and returns the final record whose status is "completed". -/
theorem C2_three_fetches_sleep_after_each :
    run_thread mockOracles "t1" "a1" 10 =
      some (Except.ok { id := "r1", status := "completed" }, mockTrace) ∧
    mockOracles.runs_create { thread_id := "t1", assistant_id := "a1" } =
      Except.ok { id := "r1", status := "queued" } ∧
    mockTrace.count (Ev.runsRetrieve "t1" "r1") = 3 ∧
    mockTrace.count Ev.sleep10 = 3 ∧
    mockTrace.count (Ev.printStatus "in_progress") = 2 ∧
    mockTrace.count (Ev.printStatus "completed") = 1 := by
  decide

/-- C3, counterexample: in the end-to-end scenario the last value the entry
point prints is the first message object itself, not the bare content
string "summary". -/
theorem C3_counterexample :
    mainProgram e2eOracles 10 = some (Except.ok (), e2eOutput) ∧
    e2eOutput.getLast? =
      some (PyVal.message { role := "assistant", content := "summary" }) ∧
    ¬ e2eOutput.getLast? = some (PyVal.str "summary") := by
  decide

/-- Inversion of the entry point's success path, for every oracle and every
fuel: a normal exit means the thread was created, the message-list call
returned a non-empty list, and the output ends with the string
"Final result:" followed by that list's first record, which is therefore
the last value printed. -/
theorem mainProgram_ok_inversion (o : Oracles) (fuel : Nat) (out : List PyVal)
    (h : mainProgram o fuel = some (Except.ok (), out)) :
    ∃ (thread : ThreadObject) (evs : List Ev) (ms : MessageList) (m : Message)
      (rest : List Message),
      create_thread o = Except.ok thread ∧
      get_messages o thread.id = Except.ok ms ∧
      ms.data = m :: rest ∧
      out = printsOf evs ++ [PyVal.str "Final result:", PyVal.message m] ∧
      out.getLast? = some (PyVal.message m) := by
  unfold mainProgram at h
  split at h
  · simp at h
  · split at h
    · simp at h
    · split at h
      · simp at h
      · split at h
        · simp at h
        · split at h
          · simp at h
          · split at h
            · simp at h
            · simp at h
            · split at h
              · simp at h
              · split at h
                · simp at h
                · rename_i x4 thread hthread x3 msg hmsg x2 finalRun evs hrun
                    x1 messages hmsgs x0 m rest hdata
                  simp only [Option.some.injEq, Prod.mk.injEq] at h
                  obtain ⟨-, hout⟩ := h
                  refine ⟨thread, evs, messages, m, rest, hthread, hmsgs, hdata,
                    hout.symm, ?_⟩
                  rw [← hout, List.getLast?_append_cons]
                  simp

/-- C3 (amended): on every success path of the entry point — any oracle, any
fuel — the final value printed is the first (newest-first) message record
returned by the message-list call: the record itself, not its content
field; in the end-to-end scenario that record is role "assistant" with
content "summary", and it is the last value printed. -/
theorem C3_final_print_is_first_message_record :
    (∀ (o : Oracles) (fuel : Nat) (out : List PyVal),
        mainProgram o fuel = some (Except.ok (), out) →
        ∃ (thread : ThreadObject) (evs : List Ev) (ms : MessageList) (m : Message)
          (rest : List Message),
          create_thread o = Except.ok thread ∧
          get_messages o thread.id = Except.ok ms ∧
          ms.data = m :: rest ∧
          out = printsOf evs ++ [PyVal.str "Final result:", PyVal.message m] ∧
          out.getLast? = some (PyVal.message m)) ∧
    mainProgram e2eOracles 10 = some (Except.ok (), e2eOutput) ∧
    get_messages e2eOracles "t1" =
      Except.ok { data := [{ role := "assistant", content := "summary" }] } ∧
    e2eOutput.getLast? =
      some (PyVal.message { role := "assistant", content := "summary" }) ∧
    Message.content { role := "assistant", content := "summary" } = "summary" :=
  ⟨mainProgram_ok_inversion, by decide, by decide, by decide, by decide⟩

/-- C3 witness: the success-path inversion applied to the concrete
end-to-end run, its hypothesis discharged by computation. -/
theorem C3_witness :
    ∃ (thread : ThreadObject) (evs : List Ev) (ms : MessageList) (m : Message)
      (rest : List Message),
      create_thread e2eOracles = Except.ok thread ∧
      get_messages e2eOracles thread.id = Except.ok ms ∧
      ms.data = m :: rest ∧
      e2eOutput = printsOf evs ++ [PyVal.str "Final result:", PyVal.message m] ∧
      e2eOutput.getLast? = some (PyVal.message m) :=
  C3_final_print_is_first_message_record.1 e2eOracles 10 e2eOutput (by decide)

/-- C10: when run-create already answers a record whose status is
"completed", run_thread returns that record unchanged after zero status
fetches, zero sleeps and zero status prints (its trace is just the create
call), whatever the fuel. -/
theorem C10_created_completed_returns_immediately (o : Oracles)
    (tid aid : String) (run : Run) (fuel : Nat)
    (hc : o.runs_create { thread_id := tid, assistant_id := aid } = Except.ok run)
    (hs : run.status = "completed") :
    run_thread o tid aid fuel = some (Except.ok run, [Ev.runsCreate tid aid]) := by
  unfold run_thread
  rw [hc]
  cases fuel with
  | zero => simp [pollLoop, hs]
  | succ n => simp [pollLoop, hs]

/-- C10 witness: a remote whose run-create answers "completed" at once. -/
theorem C10_witness :
    run_thread completedOracles "t1" "a1" 5 =
      some (Except.ok { id := "r9", status := "completed" }, [Ev.runsCreate "t1" "a1"]) :=
  C10_created_completed_returns_immediately completedOracles "t1" "a1"
    { id := "r9", status := "completed" } 5 rfl rfl

/-- C4, counterexample: the code's upload operation takes no path input.
Against a filesystem where "other.csv" holds bytes [1] and the fixed
dataset path holds bytes [2], the bytes forwarded to file-create are those
of "data/energy_data.txt", so the result differs from the spec's
path-taking `UploadFile("other.csv")`. -/
theorem C4_counterexample :
    cexOracles.fs "other.csv" = some [1] ∧
    create_file cexOracles = Except.ok { id := "uploaded-fixed-path-bytes" } ∧
    create_file_asSpecified cexOracles "other.csv" =
      Except.ok { id := "uploaded-other-bytes" } ∧
    ¬ create_file cexOracles = create_file_asSpecified cexOracles "other.csv" := by
  decide

/-- C4 (amended): the upload operation takes no path argument; it reads the
fixed local path "data/energy_data.txt", forwards exactly that file's bytes
to the remote file-create call with the fixed purpose "assistants", and
returns the remote result unchanged. -/
theorem C4_upload_reads_fixed_path (o : Oracles) (bytes : List Nat)
    (h : o.fs "data/energy_data.txt" = some bytes) :
    create_file o = o.files_create { fileBytes := bytes, purpose := "assistants" } := by
  unfold create_file
  rw [h]

/-- C4 witness: the end-to-end filesystem holds bytes [1, 2, 3] at the fixed
path, and those bytes are forwarded with purpose "assistants". -/
theorem C4_witness :
    create_file e2eOracles =
      e2eOracles.files_create { fileBytes := [1, 2, 3], purpose := "assistants" } :=
  C4_upload_reads_fixed_path e2eOracles [1, 2, 3] rfl

/-- C5: no operation catches or retries: for each of the six operations, an
error the remote call raises is returned to the caller unchanged, and the
trace kept of run_thread shows the partial sequence of calls performed
before the failure. -/
theorem C5_errors_propagate_uncaught :
    (∀ (o : Oracles) (e : Err) (bytes : List Nat),
        o.fs "data/energy_data.txt" = some bytes →
        o.files_create { fileBytes := bytes, purpose := "assistants" } = Except.error e →
        create_file o = Except.error e) ∧
    (∀ (o : Oracles) (e : Err),
        o.assistants_create assistant_payload = Except.error e →
        create_assistant o = Except.error e) ∧
    (∀ (o : Oracles) (e : Err),
        o.threads_create () = Except.error e → create_thread o = Except.error e) ∧
    (∀ (o : Oracles) (tid fid : String) (e : Err),
        o.messages_create (message_payload tid fid) = Except.error e →
        create_message o tid fid = Except.error e) ∧
    (∀ (o : Oracles) (tid aid : String) (e : Err) (fuel : Nat),
        o.runs_create { thread_id := tid, assistant_id := aid } = Except.error e →
        run_thread o tid aid fuel =
          some (Except.error e, [Ev.runsCreate tid aid])) ∧
    (∀ (o : Oracles) (tid aid : String) (run : Run) (e : Err) (fuel : Nat),
        o.runs_create { thread_id := tid, assistant_id := aid } = Except.ok run →
        run.status ≠ "completed" →
        o.runs_retrieve tid run.id 0 = Except.error e →
        run_thread o tid aid (fuel + 1) =
          some (Except.error e,
            [Ev.runsCreate tid aid, Ev.runsRetrieve tid run.id])) ∧
    (∀ (o : Oracles) (tid : String) (e : Err),
        o.messages_list tid = Except.error e → get_messages o tid = Except.error e) := by
  refine ⟨?_, ?_, ?_, ?_, ?_, ?_, ?_⟩
  · intro o e bytes hb hf
    unfold create_file
    rw [hb]
    exact hf
  · intro o e h
    exact h
  · intro o e h
    exact h
  · intro o tid fid e h
    exact h
  · intro o tid aid e fuel hc
    unfold run_thread
    rw [hc]
  · intro o tid aid run e fuel hc hs hr
    unfold run_thread
    rw [hc]
    simp only [pollLoop]
    rw [if_neg hs, hr]
    rfl
  · intro o tid e h
    exact h

/-- C5 witness: a remote whose file-create raises an error surfaces that
very error from create_file. -/
theorem C5_witness : create_file errOracles = Except.error (Err.apiError "boom") :=
  C5_errors_propagate_uncaught.1 errOracles (Err.apiError "boom") [1, 2, 3] rfl rfl

/-- C6: create_message posts to the given thread a message with role
"user", attaches exactly the single file id passed in, and uses the fixed
compile-time-constant instruction text `message_content` as content — for
every remote, the request sent is exactly that payload. -/
theorem C6_create_message_fixed_user_payload :
    (∀ (o : Oracles) (tid fid : String),
        create_message o tid fid =
          o.messages_create
            { thread_id := tid, role := "user", content := message_content,
              file_ids := [fid] }) ∧
    (∀ tid fid : String, (message_payload tid fid).role = "user") ∧
    (∀ tid fid : String, (message_payload tid fid).file_ids = [fid]) ∧
    (∀ tid fid : String, (message_payload tid fid).content = message_content) :=
  ⟨fun _ _ _ => rfl, fun _ _ => rfl, fun _ _ => rfl, fun _ _ => rfl⟩

/-- C6 witness: concrete thread and file ids. -/
theorem C6_witness :
    create_message e2eOracles "t1" "f1" =
      e2eOracles.messages_create
        { thread_id := "t1", role := "user", content := message_content,
          file_ids := ["f1"] } :=
  C6_create_message_fixed_user_payload.1 e2eOracles "t1" "f1"

/-- C7: create_assistant sends the identical fixed payload on every call —
name "Household Energy Profiler", the fixed instructions text, the single
code-interpreter tool, model "gpt-4" — for every remote and however often it
is called; against a remote that mints fresh identifiers, two successive
calls therefore send equal requests and yield two distinct assistants. -/
theorem C7_create_assistant_constant_payload :
    (∀ o : Oracles, create_assistant o = o.assistants_create assistant_payload) ∧
    assistant_payload.name = "Household Energy Profiler" ∧
    assistant_payload.tools = ["code_interpreter"] ∧
    assistant_payload.model = "gpt-4" ∧
    assistant_payload.instructions =
      "You are an experienced Household energy profiler. Your job is to analyse, summarise, and provide insights from data and create a consumer profile" ∧
    create_assistant (freshServer 0) = Except.ok { id := "asst_0" } ∧
    create_assistant (freshServer 1) = Except.ok { id := "asst_1" } ∧
    ¬ ({ id := "asst_0" } : Assistant) = { id := "asst_1" } :=
  ⟨fun _ => rfl, rfl, rfl, rfl, rfl, by decide, by decide, by decide⟩

/-- C7 witness: the first call against the fresh-id server. -/
theorem C7_witness : create_assistant (freshServer 0) = Except.ok { id := "asst_0" } :=
  C7_create_assistant_constant_payload.2.2.2.2.2.1

/-- C8: constructing the client with no OPENAI_API_KEY in the (post-dotenv)
process environment raises a KeyError; with the variable present the
construction succeeds and the repository's code reads the variable exactly
once. -/
theorem C8_api_key_required_read_once :
    (∀ o : Oracles, o.env "OPENAI_API_KEY" = none →
        (clientInit o).1 = Except.error (Err.keyError "OPENAI_API_KEY")) ∧
    (∀ (o : Oracles) (k : String), o.env "OPENAI_API_KEY" = some k →
        (clientInit o).1 = Except.ok k ∧
        (clientInit o).2.count "OPENAI_API_KEY" = 1) := by
  constructor
  · intro o h
    unfold clientInit
    rw [h]
  · intro o k h
    unfold clientInit
    rw [h]
    exact ⟨rfl, rfl⟩

/-- C8 witness: an environment without the key, and the end-to-end one with
key "sk-test". -/
theorem C8_witness :
    (clientInit noKeyOracles).1 = Except.error (Err.keyError "OPENAI_API_KEY") ∧
    (clientInit e2eOracles).1 = Except.ok "sk-test" :=
  ⟨C8_api_key_required_read_once.1 noKeyOracles rfl,
   (C8_api_key_required_read_once.2 e2eOracles "sk-test" rfl).1⟩

/-- C9: get_messages hands back exactly what the remote message-list call
returns for the given thread, with no local filtering, reordering or
transformation; in the end-to-end scenario that is the full mock
collection. -/
theorem C9_get_messages_passthrough :
    (∀ (o : Oracles) (tid : String), get_messages o tid = o.messages_list tid) ∧
    get_messages e2eOracles "t1" =
      Except.ok { data := [{ role := "assistant", content := "summary" }] } :=
  ⟨fun _ _ => rfl, rfl⟩

/-- C9 witness: the pass-through at a concrete thread id. -/
theorem C9_witness : get_messages e2eOracles "t1" = e2eOracles.messages_list "t1" :=
  C9_get_messages_passthrough.1 e2eOracles "t1"
